import Mathlib

/-!
# Verification of the KSA air-quality monitor's benchmarking core

Shallow embedding of the fair-benchmarking / regional-scanning logic of the
repository (`benchmark_analyzer.py`, `background_scanner.py`) over exact
rational arithmetic.  Python dictionaries with `.get(key, default)` access are
modelled as structures whose fields carry the default for a missing key;
a dictionary that the code tests for truthiness before use is modelled as an
`Option` (with `none` standing for an absent *or* empty dictionary, both of
which are falsy).  Python's `round(x, n)` on floats is modelled as rational
rounding to `n` decimal places; the two differ only on exact decimal halves,
which binary floats cannot represent anyway.
-/

namespace KSA

/-- Model of Python `round(x, 1)` over exact rationals. -/
def pyRound1 (x : ℚ) : ℚ := (round (10 * x) : ℤ) / 10

/-- Model of Python `round(x, 2)` over exact rationals. -/
def pyRound2 (x : ℚ) : ℚ := (round (100 * x) : ℤ) / 100

/-- A historical violation record as consumed by the scoring engine.
`severity` models `v.get('severity')` (absent key gives a non-"critical"
default) and `percentage_over` models `v.get('percentage_over', 0)`. -/
structure Violation where
  severity : String := ""
  percentage_over : ℚ := 0
deriving DecidableEq

/-- The `metrics` dictionary of a cache record; fields carry the `.get`
defaults used by the code. -/
structure Metrics where
  avg_threshold_percentage : ℚ := 0
  active_violations : ℕ := 0
  data_completeness : ℚ := 0
deriving DecidableEq

/-- One cached per-gas reading (`latest_readings[gas]`).  `value` and
`threshold` are `Option` because the code checks them against `None` /
falsiness before use. -/
structure CachedReading where
  value : Option ℚ := none
  threshold : Option ℚ := none
  is_violation : Bool := false
deriving DecidableEq

/-- The `monitoring_stats` dictionary of a cache record. -/
structure MonitoringStats where
  total_scans : ℕ := 0
  first_scan_date : Option String := none
  background_scans : ℕ := 0
  user_scans : ℕ := 0
deriving DecidableEq

/-- A scanner-produced violation dictionary (`scan_all_cities`). -/
structure ScanViolation where
  city : String := ""
  gas : String := ""
  value : ℚ := 0
  threshold : ℚ := 0
  percentage_over : ℚ := 0
  severity : String := ""
  timestamp_ksa : String := ""
deriving DecidableEq

/-- A per-city cache document (`city_pollution_cache` collection).
`metrics = none` models a missing or empty (falsy) `metrics` entry, the
case the analyzer tests with `cache_data.get('metrics')`.
`latest_readings` maps a gas name to its cached reading
(`readings.get(gas, \x7b\x7d)` yields `none`). -/
structure CacheData where
  city : String := ""
  region : String := ""
  metrics : Option Metrics := none
  latest_readings : String → Option CachedReading := fun _ => none
  last_updated : Option String := none
  violations : List ScanViolation := []
  monitoring_stats : Option MonitoringStats := none

/-! ## Fairness scoring engine (`CityBenchmarkAnalyzer.calculate_city_score`) -/

/-- `WEIGHT_LIVE` from the analyzer. -/
def WEIGHT_LIVE : ℚ := 7/10

/-- `WEIGHT_HISTORICAL` from the analyzer. -/
def WEIGHT_HISTORICAL : ℚ := 3/10

/-- `RANK_CATEGORIES`, in insertion order, as `(name, min, max)`;
`max = none` models `float('inf')`.  (The per-category display labels and
colours are presentation data and are not modelled.) -/
def RANK_CATEGORIES : List (String × ℚ × Option ℚ) :=
  [("cleanest", 0, some 30),
   ("clean", 30, some 60),
   ("moderate", 60, some 90),
   ("polluted", 90, some 120),
   ("heavily_polluted", 120, none)]

/-- The loop `if cat_info['min'] <= composite < cat_info['max']` test. -/
def inCategory (composite : ℚ) (bounds : ℚ × Option ℚ) : Bool :=
  decide (bounds.1 ≤ composite) &&
    (match bounds.2 with
     | some hi => decide (composite < hi)
     | none => true)

/-- Category assignment: first matching bucket in insertion order,
defaulting to `heavily_polluted` (the pre-loop default). -/
def categoryOf (composite : ℚ) : String :=
  match RANK_CATEGORIES.find? (fun cat => inCategory composite cat.2) with
  | some cat => cat.1
  | none => "heavily_polluted"

/-- The live-score block: `metrics.get('avg_threshold_percentage', 0)` when
the cache record and its `metrics` entry are truthy, else `0`. -/
def liveScoreVal (cache : Option CacheData) : ℚ :=
  match cache with
  | some cd =>
    match cd.metrics with
    | some m => m.avg_threshold_percentage
    | none => 0
  | none => 0

/-- `metrics.get('data_completeness', 0)` under the same truthiness test. -/
def dataQualityVal (cache : Option CacheData) : ℚ :=
  match cache with
  | some cd =>
    match cd.metrics with
    | some m => m.data_completeness
    | none => 0
  | none => 0

/-- `metrics.get('active_violations', 0)` under the same truthiness test. -/
def activeViolationsVal (cache : Option CacheData) : ℕ :=
  match cache with
  | some cd =>
    match cd.metrics with
    | some m => m.active_violations
    | none => 0
  | none => 0

/-- The historical-score block of `calculate_city_score`: weighted violation
count (critical × 1.5) times 3 plus 0.2 × the mean of the truthy
`percentage_over` values, hard-capped at 50; `0` when the violation list is
empty. -/
def historicalScoreVal (hv : List Violation) : ℚ :=
  if hv.isEmpty then 0
  else
    let violation_count := hv.length
    let critical_count := (hv.filter (fun v => v.severity == "critical")).length
    let moderate_count := violation_count - critical_count
    let weighted_violations : ℚ := (moderate_count : ℚ) + (critical_count : ℚ) * (3/2)
    let exceedances := (hv.filter (fun v => v.percentage_over != 0)).map (·.percentage_over)
    let avg_exceedance : ℚ :=
      if exceedances.isEmpty then 0 else exceedances.sum / (exceedances.length : ℚ)
    min (weighted_violations * 3 + avg_exceedance * (1/5)) 50

/-- The composite-score branch of `calculate_city_score`. -/
def compositeVal (cache : Option CacheData) (hv : List Violation) : ℚ :=
  let live_score := liveScoreVal cache
  let historical_score := historicalScoreVal hv
  let data_quality := dataQualityVal cache
  if data_quality > 3/10 then
    live_score * WEIGHT_LIVE + historical_score * WEIGHT_HISTORICAL
  else if ¬ hv.isEmpty then
    historical_score + 30
  else
    50

/-- The confidence label of `calculate_city_score`. -/
def confidenceOf (data_quality : ℚ) (hv : List Violation) : String :=
  if data_quality > 1/2 ∧ hv.length ≥ 3 then "high"
  else if data_quality > 1/2 ∨ hv.length ≥ 3 then "medium"
  else "low"

/-- The score-breakdown dictionary returned by `calculate_city_score`.
(The `region` and `category_info` entries are configuration/presentation
lookups and are not modelled.) -/
structure CityScore where
  city : String
  pollution_index : ℚ
  live_score : ℚ
  historical_score : ℚ
  category : String
  data_quality : ℚ
  confidence : String
  has_live_data : Bool
  has_historical_data : Bool
  violation_count : ℕ
  active_violations : ℕ
  last_updated : Option String
  has_data : Bool
deriving DecidableEq

/-- `CityBenchmarkAnalyzer.calculate_city_score`, with the cache record and
violation list passed explicitly (as `rank_cities` and friends do). -/
def calculate_city_score (city : String) (cache : Option CacheData)
    (hv : List Violation) : CityScore :=
  let live_score := liveScoreVal cache
  let historical_score := historicalScoreVal hv
  let data_quality := dataQualityVal cache
  let composite := compositeVal cache hv
  { city := city
    pollution_index := pyRound1 composite
    live_score := pyRound1 live_score
    historical_score := pyRound1 historical_score
    category := categoryOf composite
    data_quality := pyRound2 data_quality
    confidence := confidenceOf data_quality hv
    has_live_data := decide (data_quality > 0)
    has_historical_data := decide (hv.length > 0)
    violation_count := hv.length
    active_violations := activeViolationsVal cache
    last_updated :=
      match cache with
      | some cd => cd.last_updated
      | none => none
    has_data := decide (data_quality > 0 ∨ hv.length > 0) }

/-! ## Ranking (`CityBenchmarkAnalyzer.rank_cities`)

Python's `list.sort(key=...)` is a stable ascending sort.  A stable ascending
sort of a list is unique, so we embed it as a stable insertion sort. -/

/-- Insert `x` into `l` just before the first element whose key is not
strictly below `key x`.  On a sorted list this keeps the list sorted and, as
`x` originates to the left of `l`'s elements, places `x` before elements of
equal key — exactly the stable-sort order. -/
def insertSorted {α κ : Type} [LinearOrder κ] (key : α → κ) (x : α) :
    List α → List α
  | [] => [x]
  | y :: ys => if key y < key x then y :: insertSorted key x ys else x :: y :: ys

/-- Stable ascending sort by `key` (the semantics of Python `sort(key=...)`). -/
def stableSort {α κ : Type} [LinearOrder κ] (key : α → κ) : List α → List α
  | [] => []
  | x :: xs => insertSorted key x (stableSort key xs)

/-- The `for i, city_score in enumerate(rankings): city_score['rank'] = i + 1`
loop: pair each element with its 1-based position (`k` is the next rank). -/
def addRanks {α : Type} (k : ℕ) : List α → List (α × ℕ)
  | [] => []
  | x :: xs => (x, k) :: addRanks (k + 1) xs

/-- `CityBenchmarkAnalyzer.rank_cities`: score every configured city from the
cache map (`cache_data.get(city, \x7b\x7d)`) and history map
(`historical_data.get(city, [])`), sort ascending by `pollution_index`,
attach 1-based ranks. -/
def rank_cities (cities : List String) (cache : String → Option CacheData)
    (hist : String → List Violation) : List (CityScore × ℕ) :=
  let rankings := cities.map (fun c => calculate_city_score c (cache c) (hist c))
  addRanks 1 (stableSort (fun s => s.pollution_index) rankings)

/-! ## Gas leaderboard (`CityBenchmarkAnalyzer.get_gas_leaderboard`) -/

/-- One leaderboard row.  The rank slot is `Option ℕ` because the spec
declares it nullable; the code's final loop assigns a number to every row. -/
structure GasEntry where
  city : String
  value : Option ℚ
  threshold : Option ℚ
  threshold_percent : ℚ
  is_violation : Bool
  has_data : Bool
deriving DecidableEq

/-- Build the leaderboard row for one city: the per-gas branch on
`gas_reading.get('value') is not None`, with `threshold` defaulting to 1 and
the `threshold > 0` guard on the percentage. -/
def gasEntryFor (cache : String → Option CacheData) (gas city : String) :
    GasEntry :=
  let gas_reading : CachedReading :=
    match cache city with
    | some cd => (cd.latest_readings gas).getD {}
    | none => {}
  match gas_reading.value with
  | some v =>
    let threshold := gas_reading.threshold.getD 1
    let threshold_pct := if threshold > 0 then v / threshold * 100 else 0
    { city := city
      value := some v
      threshold := some threshold
      threshold_percent := pyRound1 threshold_pct
      is_violation := gas_reading.is_violation
      has_data := true }
  | none =>
    { city := city
      value := none
      threshold := none
      threshold_percent := 0
      is_violation := false
      has_data := false }

/-- The sort key `(not x['has_data'], x['threshold_percent'])` — Python tuple
comparison is lexicographic with `False < True`. -/
def leaderboardKey (e : GasEntry) : Lex (Bool × ℚ) :=
  toLex (!e.has_data, e.threshold_percent)

/-- `CityBenchmarkAnalyzer.get_gas_leaderboard`: one row per configured city,
sorted by `leaderboardKey`, every row given a numeric 1-based rank. -/
def get_gas_leaderboard (cities : List String)
    (cache : String → Option CacheData) (gas : String) :
    List (GasEntry × Option ℕ) :=
  let gas_rankings := cities.map (gasEntryFor cache gas)
  (addRanks 1 (stableSort leaderboardKey gas_rankings)).map
    (fun p => (p.1, some p.2))

/-! ## Pairwise comparison (`CityBenchmarkAnalyzer.compare_cities`) -/

/-- One per-gas comparison row. -/
structure GasComparison where
  city1_percent : ℚ
  city2_percent : ℚ
  cleaner_city : String
deriving DecidableEq

/-- The gases iterated by `compare_cities`. -/
def COMPARE_GASES : List String := ["NO2", "SO2", "CO", "HCHO", "CH4"]

/-- The per-gas percentage: `value / threshold * 100` when both
`r.get('value')` and `r.get('threshold')` are truthy (present and nonzero),
else 0. -/
def gasPct (r : CachedReading) : ℚ :=
  match r.value, r.threshold with
  | some v, some t => if v ≠ 0 ∧ t ≠ 0 then v / t * 100 else 0
  | _, _ => 0

/-- The comparison result (per-city summary blocks carried as tuples
`(name, pollution_index, category, violation_count)`). -/
structure ComparisonResult where
  city1 : String × ℚ × String × ℕ
  city2 : String × ℚ × String × ℕ
  overall_cleaner : String
  difference_percent : ℚ
  gas_comparisons : List (String × GasComparison)
deriving DecidableEq

/-- `CityBenchmarkAnalyzer.compare_cities`. -/
def compare_cities (city1_name city2_name : String)
    (cache : String → Option CacheData) (hist : String → List Violation) :
    ComparisonResult :=
  let score1 := calculate_city_score city1_name (cache city1_name) (hist city1_name)
  let score2 := calculate_city_score city2_name (cache city2_name) (hist city2_name)
  let readings1 : String → CachedReading := fun g =>
    match cache city1_name with
    | some cd => (cd.latest_readings g).getD {}
    | none => {}
  let readings2 : String → CachedReading := fun g =>
    match cache city2_name with
    | some cd => (cd.latest_readings g).getD {}
    | none => {}
  let gas_comparisons := COMPARE_GASES.map (fun g =>
    let pct1 := gasPct (readings1 g)
    let pct2 := gasPct (readings2 g)
    (g, { city1_percent := pyRound1 pct1
          city2_percent := pyRound1 pct2
          cleaner_city :=
            if pct1 < pct2 then city1_name
            else if pct2 < pct1 then city2_name
            else "equal" }))
  let idx1 := score1.pollution_index
  let idx2 := score2.pollution_index
  let overall_cleaner :=
    if idx1 < idx2 then city1_name
    else if idx2 < idx1 then city2_name
    else "equal"
  let difference :=
    if idx1 < idx2 then (if idx2 > 0 then (idx2 - idx1) / idx2 * 100 else 100)
    else if idx2 < idx1 then (if idx1 > 0 then (idx1 - idx2) / idx1 * 100 else 100)
    else 0
  { city1 := (city1_name, idx1, score1.category, score1.violation_count)
    city2 := (city2_name, idx2, score2.category, score2.violation_count)
    overall_cleaner := overall_cleaner
    difference_percent := pyRound1 difference
    gas_comparisons := gas_comparisons }

/-! ## Regional scanner (`RegionalScanner`) -/

/-- The clamp `max(0.0, v) if v else 0` applied to each extracted statistic
(`None` and `0` are falsy). -/
def clampPy (o : Option ℚ) : ℚ :=
  match o with
  | some v => if v ≠ 0 then max 0 v else 0
  | none => 0

/-- The statistics dictionary returned by a successful
`RegionalScanner.extract_city_stats` (the `unit` field is presentation data
and is not modelled). -/
structure ExtractStats where
  value : ℚ
  mean : ℚ
  min : ℚ
  threshold : ℚ
  is_violation : Bool
  percentage_over : ℚ
deriving DecidableEq

/-- The computational core of `RegionalScanner.extract_city_stats`, given the
three reduced statistics (`none` = null reduction) and the gas's
`column_threshold` (0 when unconfigured): `none` models the
`'No data for city area'` failure result. -/
def extract_city_stats (mean_val max_val min_val : Option ℚ)
    (threshold : ℚ) : Option ExtractStats :=
  if mean_val = none ∧ max_val = none then none
  else
    let meanv := clampPy mean_val
    let maxv := clampPy max_val
    let minv := clampPy min_val
    let is_violation : Bool := if threshold > 0 then decide (maxv ≥ threshold) else false
    let pct_over : ℚ :=
      if threshold > 0 ∧ is_violation = true then (maxv - threshold) / threshold * 100 else 0
    some { value := maxv
           mean := meanv
           min := minv
           threshold := threshold
           is_violation := is_violation
           percentage_over := pyRound1 pct_over }

/-- The severity assignment in `scan_all_cities`:
`'critical' if stats['percentage_over'] >= 100 else 'moderate'`. -/
def severityOf (percentage_over : ℚ) : String :=
  if percentage_over ≥ 100 then "critical" else "moderate"

/-! ### Violation recording (`RegionalScanner._record_violation`)

The violation store itself lives in the external `ViolationRecorder`
(not under the repository's analyzed sources); it is modelled from the spec. -/

/-- Modelled from the spec: the Violation Store's
`exists(city, gas, timestamp) -> bool` — a lookup by the deduplication
triple over the stored records.  (The `ViolationRecorder.violation_exists`
implementation is not part of the analyzed sources.) -/
def violation_exists (store : List ScanViolation)
    (city gas ts : String) : Bool :=
  store.any (fun r => r.city == city && r.gas == gas && r.timestamp_ksa == ts)

/-- Modelled from the spec: the Violation Store's `insert` — appends the
record.  (The `ViolationRecorder.save_violation` implementation is not part
of the analyzed sources; the narrative text is not modelled.) -/
def save_violation (store : List ScanViolation) (v : ScanViolation) :
    List ScanViolation :=
  store ++ [v]

/-- `RegionalScanner._record_violation`: check existence by the
(city, gas, localized timestamp) triple, insert only when absent. -/
def record_violation (store : List ScanViolation) (v : ScanViolation) :
    List ScanViolation :=
  if violation_exists store v.city v.gas v.timestamp_ksa then store
  else save_violation store v

/-- Number of stored records matching a deduplication triple. -/
def matchCount (store : List ScanViolation) (city gas ts : String) : ℕ :=
  (store.filter (fun r => r.city == city && r.gas == gas && r.timestamp_ksa == ts)).length

/-! ### Cache writing (`RegionalScanner._save_all_to_cache`) -/

/-- The per-city block assembled by `scan_all_cities` before saving. -/
structure ScanCityData where
  city : String := ""
  region : String := ""
  readings : String → Option CachedReading := fun _ => none
  violations : List ScanViolation := []
  metrics : Metrics := {}

/-- The `existing_stats` read of the `_save_all_to_cache` loop: the stored
`monitoring_stats` of the city's current document; a missing document or a
missing `monitoring_stats` field gives the zero defaults. -/
def existingStatsOf (st : String → Option CacheData) (city : String) :
    MonitoringStats :=
  match st city with
  | some doc => doc.monitoring_stats.getD {}
  | none => {}

/-- The `monitoring_stats` update of the `_save_all_to_cache` loop:
`total_scans` and `background_scans` incremented by 1, `user_scans` kept,
`first_scan_date` kept (defaulting to the current date). -/
def updatedStats (existing_stats : MonitoringStats) (now : String) :
    MonitoringStats :=
  { total_scans := existing_stats.total_scans + 1
    first_scan_date := some (existing_stats.first_scan_date.getD now)
    background_scans := existing_stats.background_scans + 1
    user_scans := existing_stats.user_scans }

/-- One iteration of the `_save_all_to_cache` loop for the entry `p`
(city name and scanned data): skip when `data_completeness` is 0, otherwise
read the existing `monitoring_stats`, update the counters and overwrite the
city's document. -/
def saveCityStep (now : String) (st : String → Option CacheData)
    (p : String × ScanCityData) : String → Option CacheData :=
  if p.2.metrics.data_completeness = 0 then st
  else fun c =>
    if c = p.1 then
      some { city := p.1
             region := p.2.region
             last_updated := some now
             latest_readings := p.2.readings
             metrics := some p.2.metrics
             violations := p.2.violations
             monitoring_stats := some (updatedStats (existingStatsOf st p.1) now) }
    else st c

/-- `RegionalScanner._save_all_to_cache` over an abstract cache store:
the loop over the scanned cities, in order. -/
def save_all_to_cache (results : List (String × ScanCityData)) (now : String)
    (store : String → Option CacheData) : String → Option CacheData :=
  results.foldl (saveCityStep now) store

/-- The `total_scans == background_scans + user_scans` invariant on one
monitoring-stats block. -/
def statsInv (ms : MonitoringStats) : Prop :=
  ms.total_scans = ms.background_scans + ms.user_scans

/-- The invariant over a whole cache store: every stored
`monitoring_stats` block satisfies `statsInv`. -/
def storeInv (store : String → Option CacheData) : Prop :=
  ∀ c doc ms, store c = some doc → doc.monitoring_stats = some ms → statsInv ms

/-! ## Lemmas about the stable sort and rank assignment -/

section SortLemmas

variable {α κ : Type} [LinearOrder κ] (key : α → κ)

theorem mem_insertSorted (x a : α) (l : List α) :
    a ∈ insertSorted key x l ↔ a = x ∨ a ∈ l := by
  induction l with
  | nil => simp [insertSorted]
  | cons y ys ih =>
    by_cases h : key y < key x
    · simp only [insertSorted, if_pos h, List.mem_cons, ih]
      tauto
    · simp [insertSorted, if_neg h]

theorem perm_insertSorted (x : α) (l : List α) :
    (insertSorted key x l).Perm (x :: l) := by
  induction l with
  | nil => exact List.Perm.refl _
  | cons y ys ih =>
    by_cases h : key y < key x
    · simp only [insertSorted, if_pos h]
      exact (ih.cons y).trans (List.Perm.swap x y ys)
    · simp [insertSorted, if_neg h]

theorem perm_stableSort (l : List α) : (stableSort key l).Perm l := by
  induction l with
  | nil => exact List.Perm.refl _
  | cons x xs ih => exact (perm_insertSorted key x _).trans (ih.cons x)

theorem length_stableSort (l : List α) :
    (stableSort key l).length = l.length :=
  (perm_stableSort key l).length_eq

theorem sorted_insertSorted (x : α) (l : List α)
    (h : List.Sorted (fun a b => key a ≤ key b) l) :
    List.Sorted (fun a b => key a ≤ key b) (insertSorted key x l) := by
  induction l with
  | nil => simp [insertSorted]
  | cons y ys ih =>
    rw [List.sorted_cons] at h
    by_cases hlt : key y < key x
    · simp only [insertSorted, if_pos hlt]
      rw [List.sorted_cons]
      refine ⟨fun b hb => ?_, ih h.2⟩
      rcases (mem_insertSorted key x b ys).mp hb with hbx | hby
      · exact hbx ▸ le_of_lt hlt
      · exact h.1 b hby
    · simp only [insertSorted, if_neg hlt]
      rw [List.sorted_cons]
      refine ⟨fun b hb => ?_, List.sorted_cons.mpr h⟩
      rcases List.mem_cons.mp hb with hby | hbys
      · exact hby ▸ le_of_not_lt hlt
      · exact le_trans (le_of_not_lt hlt) (h.1 b hbys)

theorem sorted_stableSort (l : List α) :
    List.Sorted (fun a b => key a ≤ key b) (stableSort key l) := by
  induction l with
  | nil => simp [stableSort]
  | cons x xs ih => exact sorted_insertSorted key x _ ih

theorem filter_insertSorted_pos (x : α) (l : List α) (v : κ) (hx : key x = v) :
    (insertSorted key x l).filter (fun a => decide (key a = v))
      = x :: l.filter (fun a => decide (key a = v)) := by
  induction l with
  | nil => simp [insertSorted, hx]
  | cons y ys ih =>
    by_cases hlt : key y < key x
    · have hy : ¬ key y = v := by rw [← hx]; exact ne_of_lt hlt
      simp only [insertSorted, if_pos hlt]
      simp [List.filter_cons, hy, ih]
    · simp only [insertSorted, if_neg hlt]
      simp [List.filter_cons, hx]

theorem filter_insertSorted_neg (x : α) (l : List α) (v : κ) (hx : ¬ key x = v) :
    (insertSorted key x l).filter (fun a => decide (key a = v))
      = l.filter (fun a => decide (key a = v)) := by
  induction l with
  | nil => simp [insertSorted, hx]
  | cons y ys ih =>
    by_cases hlt : key y < key x
    · simp only [insertSorted, if_pos hlt]
      simp [List.filter_cons, ih]
    · simp only [insertSorted, if_neg hlt]
      simp [List.filter_cons, hx]

/-- The stable sort leaves the subsequence of any fixed key value unchanged:
this is exactly the tie-stability of Python's sort. -/
theorem filter_stableSort (l : List α) (v : κ) :
    (stableSort key l).filter (fun a => decide (key a = v))
      = l.filter (fun a => decide (key a = v)) := by
  induction l with
  | nil => rfl
  | cons x xs ih =>
    by_cases hx : key x = v
    · rw [stableSort, filter_insertSorted_pos key x _ v hx, ih]
      simp [List.filter_cons, hx]
    · rw [stableSort, filter_insertSorted_neg key x _ v hx, ih]
      simp [List.filter_cons, hx]

theorem map_fst_addRanks (k : ℕ) (l : List α) :
    (addRanks k l).map Prod.fst = l := by
  induction l generalizing k with
  | nil => rfl
  | cons x xs ih => simp [addRanks, ih]

theorem length_addRanks (k : ℕ) (l : List α) :
    (addRanks k l).length = l.length := by
  induction l generalizing k with
  | nil => rfl
  | cons x xs ih => simp [addRanks, ih]

theorem addRanks_get? (k : ℕ) (l : List α) (i : ℕ) :
    (addRanks k l).get? i = (l.get? i).map (fun a => (a, k + i)) := by
  induction l generalizing k i with
  | nil => simp [addRanks]
  | cons x xs ih =>
    cases i with
    | zero => simp [addRanks]
    | succ n =>
      simp only [addRanks, List.get?_cons_succ, ih]
      rw [Nat.add_right_comm k 1 n, Nat.add_assoc]

end SortLemmas

/-! ## Rounding helper lemmas -/

theorem pyRound1_zero : pyRound1 0 = 0 := by norm_num [pyRound1]

theorem pyRound1_fifty : pyRound1 50 = 50 := by norm_num [pyRound1]

theorem pyRound1_hundred : pyRound1 100 = 100 := by norm_num [pyRound1]

theorem pyRound2_zero : pyRound2 0 = 0 := by norm_num [pyRound2]

theorem severityOf_critical_iff (p : ℚ) :
    severityOf p = "critical" ↔ p ≥ 100 := by
  by_cases hp : p ≥ 100 <;> simp [severityOf, hp]

theorem severityOf_cases (p : ℚ) :
    severityOf p = "critical" ∨ severityOf p = "moderate" := by
  by_cases hp : p ≥ 100 <;> simp [severityOf, hp]

/-! ## Claim C1 -/

/-- **C1, counterexample.** For a city with no cache record and no
violations the composite score is indeed exactly 50, but the category the
code assigns is *not* `moderate`: 50 falls into the `clean` bucket
`[30, 60)` of `RANK_CATEGORIES`. -/
theorem C1_counterexample :
    (calculate_city_score "Riyadh" none []).pollution_index = 50 ∧
    (calculate_city_score "Riyadh" none []).category ≠ "moderate" := by
  constructor
  · show pyRound1 (compositeVal none []) = 50
    norm_num [pyRound1, round_eq, compositeVal, dataQualityVal, liveScoreVal,
      historicalScoreVal]
  · show categoryOf (compositeVal none []) ≠ "moderate"
    norm_num [compositeVal, dataQualityVal, liveScoreVal, historicalScoreVal]
    norm_num [categoryOf, RANK_CATEGORIES, List.find?, inCategory]
    decide

/-- **C1, amended.** For every city given an empty cache record
(`data_quality = 0`) and an empty violation list, `calculate_city_score`
returns composite score exactly 50 (the neutral branch) and assigns
category `clean` (the `[30, 60)` bucket of the fair-scoring thresholds). -/
theorem C1_neutral_score (city : String) :
    compositeVal none [] = 50 ∧
    dataQualityVal none = 0 ∧
    (calculate_city_score city none []).pollution_index = 50 ∧
    (calculate_city_score city none []).data_quality = 0 ∧
    (calculate_city_score city none []).category = "clean" := by
  refine ⟨?_, rfl, ?_, ?_, ?_⟩
  · norm_num [compositeVal, dataQualityVal, liveScoreVal, historicalScoreVal]
  · show pyRound1 (compositeVal none []) = 50
    norm_num [pyRound1, round_eq, compositeVal, dataQualityVal, liveScoreVal,
      historicalScoreVal]
  · show pyRound2 (dataQualityVal none) = 0
    norm_num [pyRound2, round_eq, dataQualityVal]
  · show categoryOf (compositeVal none []) = "clean"
    norm_num [compositeVal, dataQualityVal, liveScoreVal, historicalScoreVal]
    norm_num [categoryOf, RANK_CATEGORIES, List.find?, inCategory]

/-! ## Claim C4 -/

/-- The C4 scenario cache record: `avg_threshold_percentage = 40`,
`data_completeness = 0.8`. -/
def cacheC4 : Option CacheData :=
  some { metrics := some { avg_threshold_percentage := 40, data_completeness := 4/5 } }

/-- The C4 scenario history: 2 moderate + 1 critical violation with
exceedances [50, 80, 120]. -/
def hvC4 : List Violation :=
  [{ severity := "moderate", percentage_over := 50 },
   { severity := "moderate", percentage_over := 80 },
   { severity := "critical", percentage_over := 120 }]

/-- **C4.** On the scenario input, the historical score is
`min(3.5 * 3 + (250/3) * 0.2, 50) = 163/6 ≈ 27.17` (the claim's 83.33 is
the exact mean `250/3`), the composite is
`0.7 * 40 + 0.3 * (163/6) = 723/20 = 36.15`, and the category is `clean`. -/
theorem C4_scenario :
    historicalScoreVal hvC4 = 163/6 ∧
    (163 : ℚ)/6 = min ((2 + 1 * (3/2)) * 3 + (250/3) * (1/5)) 50 ∧
    compositeVal cacheC4 hvC4 = 723/20 ∧
    (723 : ℚ)/20 = 40 * (7/10) + (163/6) * (3/10) ∧
    (calculate_city_score "X" cacheC4 hvC4).category = "clean" := by
  refine ⟨?_, by norm_num, ?_, by norm_num, ?_⟩
  · simp [historicalScoreVal, hvC4, List.filter_cons]
    norm_num
  · simp [compositeVal, dataQualityVal, liveScoreVal, historicalScoreVal,
      cacheC4, hvC4, List.filter_cons, WEIGHT_LIVE, WEIGHT_HISTORICAL]
    norm_num
  · show categoryOf (compositeVal cacheC4 hvC4) = "clean"
    have hc : compositeVal cacheC4 hvC4 = 723/20 := by
      simp [compositeVal, dataQualityVal, liveScoreVal, historicalScoreVal,
        cacheC4, hvC4, List.filter_cons, WEIGHT_LIVE, WEIGHT_HISTORICAL]
      norm_num
    rw [hc]
    norm_num [categoryOf, RANK_CATEGORIES, List.find?, inCategory]

/-! ## Claim C7 -/

/-- **C7.** For every extracted statistic set that succeeds: `is_violation`
holds exactly when the (zero-clamped) max value reaches the gas's
`column_threshold` and the threshold is positive — a threshold `≤ 0` can
never produce a violation; the stored `percentage_over` is
`(max - threshold) / threshold * 100` (rounded to one decimal, the form in
which it is stored and compared) exactly when a violation holds and `0`
otherwise; and the severity assigned by the scan is `critical` exactly when
the stored `percentage_over` is `≥ 100`, else `moderate`. -/
theorem C7_extract_stats (mean_val max_val min_val : Option ℚ) (threshold : ℚ)
    (s : ExtractStats)
    (h : extract_city_stats mean_val max_val min_val threshold = some s) :
    (s.is_violation = true ↔ (threshold > 0 ∧ clampPy max_val ≥ threshold)) ∧
    (threshold ≤ 0 → s.is_violation = false) ∧
    (s.is_violation = true →
      s.percentage_over = pyRound1 ((clampPy max_val - threshold) / threshold * 100)) ∧
    (s.is_violation = false → s.percentage_over = 0) ∧
    (severityOf s.percentage_over = "critical" ↔ s.percentage_over ≥ 100) ∧
    (severityOf s.percentage_over = "critical" ∨ severityOf s.percentage_over = "moderate") := by
  rw [extract_city_stats] at h
  split at h
  · exact absurd h (by simp)
  · rw [Option.some_inj] at h
    subst h
    refine ⟨?_, ?_, ?_, ?_, severityOf_critical_iff _, severityOf_cases _⟩
    · show (if threshold > 0 then decide (clampPy max_val ≥ threshold) else false) = true ↔ _
      by_cases hthr : threshold > 0
      · simp [hthr]
      · simp [hthr]
    · intro hle
      show (if threshold > 0 then decide (clampPy max_val ≥ threshold) else false) = false
      rw [if_neg (not_lt.mpr hle)]
    · intro hviol
      show pyRound1 (if threshold > 0 ∧ _ = true then
          (clampPy max_val - threshold) / threshold * 100 else 0) = _
      have hthr : threshold > 0 := by
        by_contra hc
        rw [show (if threshold > 0 then decide (clampPy max_val ≥ threshold) else false)
            = false from if_neg hc] at hviol
        exact Bool.false_ne_true hviol
      rw [if_pos ⟨hthr, hviol⟩]
    · intro hviol
      have hviol2 : (if threshold > 0 then decide (clampPy max_val ≥ threshold)
          else false) = false := hviol
      show pyRound1 (if threshold > 0 ∧ _ = true then
          (clampPy max_val - threshold) / threshold * 100 else 0) = 0
      rw [if_neg, pyRound1_zero]
      rintro ⟨-, hcontra⟩
      rw [hviol2] at hcontra
      exact Bool.false_ne_true hcontra

/-- The concrete C7 result: a reading with max 250 against threshold 100
gives a 150% exceedance and a critical-grade violation. -/
def statsC7 : ExtractStats :=
  { value := 250, mean := 1, min := 0, threshold := 100,
    is_violation := true, percentage_over := 150 }

/-- **C7, witness.** `extract_city_stats` at mean 1, max 250, min −3 and
threshold 100 produces `statsC7`, on which the C7 properties hold. -/
theorem C7_extract_stats_witness :
    extract_city_stats (some 1) (some 250) (some (-3)) 100 = some statsC7 ∧
    (statsC7.is_violation = true ↔ ((100 : ℚ) > 0 ∧ clampPy (some 250) ≥ 100)) ∧
    (severityOf statsC7.percentage_over = "critical" ↔ statsC7.percentage_over ≥ 100) := by
  have hx : extract_city_stats (some 1) (some 250) (some (-3)) 100 = some statsC7 := by
    rw [extract_city_stats]
    rw [if_neg (by simp)]
    rw [Option.some_inj]
    simp only [statsC7, clampPy]
    norm_num [pyRound1, round_eq]
  exact ⟨hx, (C7_extract_stats (some 1) (some 250) (some (-3)) 100 statsC7 hx).1,
    (C7_extract_stats (some 1) (some 250) (some (-3)) 100 statsC7 hx).2.2.2.2.1⟩

/-! ## Claim C10 -/

/-- **C10.** A cache record whose `metrics` entry is missing or empty
(`metrics = none`, both being falsy in the code's truthiness test) is scored
identically to having no cache record at all: `live_score` and
`data_quality` stay 0, `has_live_data` is false, every score-related output
field coincides with the no-record score, and the composite falls into the
historical-penalty branch (`historical + 30`) when violations exist and into
the neutral branch (50) otherwise.  (Only `last_updated`, a passthrough
timestamp, can differ.) -/
theorem C10_empty_metrics (city : String) (cd : CacheData) (hv : List Violation)
    (h : cd.metrics = none) :
    (calculate_city_score city (some cd) hv).live_score = 0 ∧
    (calculate_city_score city (some cd) hv).data_quality = 0 ∧
    (calculate_city_score city (some cd) hv).has_live_data = false ∧
    (calculate_city_score city (some cd) hv).pollution_index
      = (calculate_city_score city none hv).pollution_index ∧
    (calculate_city_score city (some cd) hv).historical_score
      = (calculate_city_score city none hv).historical_score ∧
    (calculate_city_score city (some cd) hv).category
      = (calculate_city_score city none hv).category ∧
    (calculate_city_score city (some cd) hv).confidence
      = (calculate_city_score city none hv).confidence ∧
    (calculate_city_score city (some cd) hv).active_violations
      = (calculate_city_score city none hv).active_violations ∧
    (calculate_city_score city (some cd) hv).has_data
      = (calculate_city_score city none hv).has_data ∧
    (hv ≠ [] → compositeVal (some cd) hv = historicalScoreVal hv + 30) ∧
    (hv = [] → compositeVal (some cd) hv = 50) := by
  have hlive : liveScoreVal (some cd) = 0 := by simp [liveScoreVal, h]
  have hdq : dataQualityVal (some cd) = 0 := by simp [dataQualityVal, h]
  have hav : activeViolationsVal (some cd) = 0 := by simp [activeViolationsVal, h]
  have hcomp : compositeVal (some cd) hv = compositeVal none hv := by
    simp only [compositeVal]
    rw [hlive, hdq]
    simp only [liveScoreVal, dataQualityVal]
  refine ⟨?_, ?_, ?_, ?_, ?_, ?_, ?_, ?_, ?_, ?_, ?_⟩
  · show pyRound1 (liveScoreVal (some cd)) = 0
    rw [hlive, pyRound1_zero]
  · show pyRound2 (dataQualityVal (some cd)) = 0
    rw [hdq, pyRound2_zero]
  · show decide (dataQualityVal (some cd) > 0) = false
    rw [hdq]
    norm_num
  · show pyRound1 (compositeVal (some cd) hv) = pyRound1 (compositeVal none hv)
    rw [hcomp]
  · rfl
  · show categoryOf (compositeVal (some cd) hv) = categoryOf (compositeVal none hv)
    rw [hcomp]
  · show confidenceOf (dataQualityVal (some cd)) hv = confidenceOf (dataQualityVal none) hv
    rw [hdq]
    rfl
  · show activeViolationsVal (some cd) = activeViolationsVal none
    rw [hav]
    rfl
  · show decide (dataQualityVal (some cd) > 0 ∨ _) = decide (dataQualityVal none > 0 ∨ _)
    rw [hdq]
    rfl
  · intro hne
    have hemp : hv.isEmpty = false := by
      cases hv with
      | nil => exact absurd rfl hne
      | cons a l => rfl
    simp [compositeVal, hdq, hemp]
    norm_num
  · intro hnil
    subst hnil
    simp [compositeVal, hdq]
    norm_num

/-- The C10 witness cache record: a `last_updated` timestamp but an empty
`metrics` entry. -/
def cdC10 : CacheData := { metrics := none, last_updated := some "2026-01-01T00:00:00" }

/-- **C10, witness.** The C10 properties hold concretely for `cdC10` with an
empty violation list: the record scores like an absent one, through the
neutral branch. -/
theorem C10_empty_metrics_witness :
    (calculate_city_score "Jeddah" (some cdC10) []).live_score = 0 ∧
    (calculate_city_score "Jeddah" (some cdC10) []).category
      = (calculate_city_score "Jeddah" none []).category ∧
    compositeVal (some cdC10) [] = 50 :=
  ⟨(C10_empty_metrics "Jeddah" cdC10 [] rfl).1,
   (C10_empty_metrics "Jeddah" cdC10 [] rfl).2.2.2.2.2.1,
   (C10_empty_metrics "Jeddah" cdC10 [] rfl).2.2.2.2.2.2.2.2.2.2 rfl⟩

/-! ## Claim C9 -/

theorem violation_exists_false_iff (store : List ScanViolation)
    (city gas ts : String) :
    violation_exists store city gas ts = false ↔
      matchCount store city gas ts = 0 := by
  induction store with
  | nil => simp [violation_exists, matchCount]
  | cons r rest ih =>
    by_cases hr : (r.city == city && r.gas == gas && r.timestamp_ksa == ts) = true
    · simp [violation_exists, matchCount, List.filter_cons, hr]
    · have hr2 : (r.city == city && r.gas == gas && r.timestamp_ksa == ts) = false :=
        Bool.eq_false_iff.mpr hr
      have h1 : violation_exists (r :: rest) city gas ts
          = violation_exists rest city gas ts := by
        simp [violation_exists, List.any_cons, hr2]
      have h2 : matchCount (r :: rest) city gas ts
          = matchCount rest city gas ts := by
        simp [matchCount, List.filter_cons, hr2]
      rw [h1, h2]
      exact ih

theorem matchCount_append (s1 s2 : List ScanViolation) (city gas ts : String) :
    matchCount (s1 ++ s2) city gas ts
      = matchCount s1 city gas ts + matchCount s2 city gas ts := by
  simp [matchCount, List.filter_append]

/-- **C9.** Over the abstracted violation store, recording two detected
violations that carry the same (city, gas, localized timestamp) triple —
starting from a store with no record of that triple — leaves exactly one
stored record with that triple: `_record_violation` checks existence by the
triple first and skips the insert when a match exists. -/
theorem C9_dedup (store : List ScanViolation) (v1 v2 : ScanViolation)
    (hc : v2.city = v1.city) (hg : v2.gas = v1.gas)
    (ht : v2.timestamp_ksa = v1.timestamp_ksa)
    (h0 : matchCount store v1.city v1.gas v1.timestamp_ksa = 0) :
    matchCount (record_violation (record_violation store v1) v2)
      v1.city v1.gas v1.timestamp_ksa = 1 := by
  have hex1 : violation_exists store v1.city v1.gas v1.timestamp_ksa = false :=
    (violation_exists_false_iff store _ _ _).mpr h0
  have step1 : record_violation store v1 = store ++ [v1] := by
    rw [record_violation, hex1]
    rfl
  have hcount1 : matchCount (store ++ [v1]) v1.city v1.gas v1.timestamp_ksa = 1 := by
    rw [matchCount_append, h0]
    simp [matchCount, List.filter_cons]
  have hex2 : violation_exists (store ++ [v1]) v2.city v2.gas v2.timestamp_ksa = true := by
    rw [hc, hg, ht]
    rw [← Bool.not_eq_false, violation_exists_false_iff, hcount1]
    norm_num
  rw [step1, record_violation, hex2]
  exact hcount1

/-- The concrete C9 violation record. -/
def vC9 : ScanViolation :=
  { city := "Jeddah", gas := "NO2", value := 2, threshold := 1,
    percentage_over := 100, severity := "critical",
    timestamp_ksa := "2026-01-01 12:00:00 KSA" }

/-- **C9, witness.** Recording `vC9` twice into an empty store stores it
exactly once. -/
theorem C9_dedup_witness :
    matchCount (record_violation (record_violation [] vC9) vC9)
      vC9.city vC9.gas vC9.timestamp_ksa = 1 :=
  C9_dedup [] vC9 vC9 rfl rfl rfl (by simp [matchCount])

/-! ## Claim C2 -/

/-- **C2.** For every cache mapping and historical-violation mapping,
`rank_cities` returns exactly one entry per configured city (a permutation
of the city list — no city dropped, even with zero data), sorted ascending
by `pollution_index`, with the 1-based rank equal to the sorted position;
and for every value `v` the entries with `pollution_index = v` appear in
input iteration order (Python's sort is stable), so tied cities keep input
order and receive consecutive ranks. -/
theorem C2_rank_cities (cities : List String) (cache : String → Option CacheData)
    (hist : String → List Violation) :
    (rank_cities cities cache hist).length = cities.length ∧
    ((rank_cities cities cache hist).map (fun p => p.1.city)).Perm cities ∧
    List.Sorted (fun a b => a.pollution_index ≤ b.pollution_index)
      ((rank_cities cities cache hist).map Prod.fst) ∧
    (∀ i r, (rank_cities cities cache hist).get? i = some r → r.2 = i + 1) ∧
    (∀ v : ℚ, ((rank_cities cities cache hist).map Prod.fst).filter
        (fun s => decide (s.pollution_index = v))
      = (cities.map (fun c => calculate_city_score c (cache c) (hist c))).filter
        (fun s => decide (s.pollution_index = v))) := by
  have hfst : (rank_cities cities cache hist).map Prod.fst
      = stableSort (fun s => s.pollution_index)
          (cities.map (fun c => calculate_city_score c (cache c) (hist c))) :=
    map_fst_addRanks _ _
  refine ⟨?_, ?_, ?_, ?_, ?_⟩
  · rw [rank_cities, length_addRanks, length_stableSort, List.length_map]
  · have h1 : ((rank_cities cities cache hist).map Prod.fst).Perm
        (cities.map (fun c => calculate_city_score c (cache c) (hist c))) := by
      rw [hfst]
      exact perm_stableSort _ _
    have h2 := h1.map (fun s : CityScore => s.city)
    rw [List.map_map, List.map_map] at h2
    have h3 : cities.map ((fun s : CityScore => s.city) ∘
        (fun c => calculate_city_score c (cache c) (hist c))) = cities := by
      conv_rhs => rw [← List.map_id cities]
      exact List.map_congr_left (fun c _ => rfl)
    rw [h3] at h2
    exact h2
  · rw [hfst]
    exact sorted_stableSort _ _
  · intro i r hr
    rw [rank_cities, addRanks_get?] at hr
    rcases Option.map_eq_some'.mp hr with ⟨a, _, ha2⟩
    rw [← ha2]
    exact Nat.add_comm 1 i
  · intro v
    rw [hfst]
    exact filter_stableSort _ _ v

/-- **C2, witness.** With two cities and no data both score 50; the stable
sort keeps input order A, B and `get? 1` returns city B with rank 2 = 1+1. -/
theorem C2_rank_cities_witness :
    (rank_cities ["A", "B"] (fun _ => none) (fun _ => [])).get? 1
      = some (calculate_city_score "B" none [], 2) ∧
    (calculate_city_score "B" none [], 2).2 = 1 + 1 := by
  have hAB : (calculate_city_score "B" none []).pollution_index
      = (calculate_city_score "A" none []).pollution_index := rfl
  have hsort : stableSort (fun s : CityScore => s.pollution_index)
      [calculate_city_score "A" none [], calculate_city_score "B" none []]
    = [calculate_city_score "A" none [], calculate_city_score "B" none []] := by
    rw [stableSort, stableSort, stableSort, insertSorted, insertSorted, hAB,
      if_neg (lt_irrefl _)]
  have hget : (rank_cities ["A", "B"] (fun _ => none) (fun _ => [])).get? 1
      = some (calculate_city_score "B" none [], 2) := by
    rw [rank_cities]
    show (addRanks 1 (stableSort _
      [calculate_city_score "A" none [], calculate_city_score "B" none []])).get? 1 = _
    rw [hsort]
    rfl
  exact ⟨hget, (C2_rank_cities ["A", "B"] (fun _ => none) (fun _ => [])).2.2.2.1 1 _ hget⟩

/-! ## Claim C5 -/

/-- The C5 scenario cache: city B has a cached reading for gas G (value 5,
threshold 10); city A has none. -/
def cacheC5 : String → Option CacheData := fun c =>
  if c = "B" then
    some { latest_readings := fun g =>
            if g = "G" then some { value := some 5, threshold := some 10 } else none }
  else none

theorem leaderboardKey_C5_lt :
    leaderboardKey (gasEntryFor cacheC5 "G" "B")
      < leaderboardKey (gasEntryFor cacheC5 "G" "A") := by
  have h1 : (gasEntryFor cacheC5 "G" "B").has_data = true := rfl
  have h2 : (gasEntryFor cacheC5 "G" "A").has_data = false := rfl
  rw [leaderboardKey, leaderboardKey, h1, h2]
  rw [Prod.Lex.lt_iff]
  left
  simp

theorem gas_leaderboard_C5_eval :
    get_gas_leaderboard ["A", "B"] cacheC5 "G"
      = [(gasEntryFor cacheC5 "G" "B", some 1), (gasEntryFor cacheC5 "G" "A", some 2)] := by
  rw [get_gas_leaderboard]
  show (addRanks 1 (stableSort leaderboardKey
    [gasEntryFor cacheC5 "G" "A", gasEntryFor cacheC5 "G" "B"])).map _ = _
  rw [stableSort, stableSort, stableSort, insertSorted, insertSorted,
    if_pos leaderboardKey_C5_lt]
  rfl

/-- **C5, counterexample.** In the leaderboard for gas G over cities A and B
of `cacheC5`, city A (no cached reading) does sort after B, but its rank is
the numeric 2, not null: the code's final loop numbers every row. -/
theorem C5_counterexample :
    ¬ (∀ p ∈ get_gas_leaderboard ["A", "B"] cacheC5 "G",
        p.1.has_data = false → p.2 = none) := by
  intro hall
  have hmem : (gasEntryFor cacheC5 "G" "A", (some 2 : Option ℕ))
      ∈ get_gas_leaderboard ["A", "B"] cacheC5 "G" := by
    rw [gas_leaderboard_C5_eval]
    simp
  have hnone := hall _ hmem rfl
  exact Option.some_ne_none 2 hnone

/-- **C5, amended.** For every cache mapping and every gas,
`get_gas_leaderboard` emits one row per configured city, sorted by the key
(`not has_data`, `threshold_percent`): all cities lacking a cached reading
for the gas appear after every city that has one and are ordered among
themselves by the same ascending score (their scores are all 0, so they keep
input order); and every row — including the no-data rows — receives the
numeric 1-based rank equal to its sorted position (not null). -/
theorem C5_gas_leaderboard (cities : List String)
    (cache : String → Option CacheData) (gas : String) :
    (get_gas_leaderboard cities cache gas).length = cities.length ∧
    List.Sorted (fun a b => leaderboardKey a ≤ leaderboardKey b)
      ((get_gas_leaderboard cities cache gas).map Prod.fst) ∧
    (∀ i r, (get_gas_leaderboard cities cache gas).get? i = some r →
      r.2 = some (i + 1)) ∧
    (∀ (i j : ℕ) (hi : i < ((get_gas_leaderboard cities cache gas).map Prod.fst).length)
       (hj : j < ((get_gas_leaderboard cities cache gas).map Prod.fst).length),
       i < j →
       (((get_gas_leaderboard cities cache gas).map Prod.fst).get ⟨i, hi⟩).has_data = false →
       (((get_gas_leaderboard cities cache gas).map Prod.fst).get ⟨j, hj⟩).has_data = false) := by
  have hfst : (get_gas_leaderboard cities cache gas).map Prod.fst
      = stableSort leaderboardKey (cities.map (gasEntryFor cache gas)) := by
    rw [get_gas_leaderboard, List.map_map,
      show (Prod.fst ∘ fun p : GasEntry × ℕ => (p.1, some p.2))
        = (Prod.fst : GasEntry × ℕ → GasEntry) from rfl]
    exact map_fst_addRanks 1 _
  have hsorted : List.Sorted (fun a b => leaderboardKey a ≤ leaderboardKey b)
      ((get_gas_leaderboard cities cache gas).map Prod.fst) := by
    rw [hfst]
    exact sorted_stableSort _ _
  refine ⟨?_, hsorted, ?_, ?_⟩
  · rw [get_gas_leaderboard, List.length_map, length_addRanks, length_stableSort,
      List.length_map]
  · intro i r hr
    rw [get_gas_leaderboard, List.get?_eq_getElem?, List.getElem?_map,
      ← List.get?_eq_getElem?, addRanks_get?] at hr
    rw [Option.map_map] at hr
    rcases Option.map_eq_some'.mp hr with ⟨a, -, ha2⟩
    rw [← ha2]
    show some (1 + i) = some (i + 1)
    rw [Nat.add_comm]
  · intro i j hi hj hij hdi
    have hrel := List.Sorted.rel_get_of_lt hsorted
      (a := ⟨i, hi⟩) (b := ⟨j, hj⟩) (Fin.mk_lt_mk.mpr hij)
    rw [leaderboardKey, leaderboardKey, hdi, Prod.Lex.le_iff] at hrel
    simp only [Bool.not_false] at hrel
    rcases hrel with hlt | ⟨heq, -⟩
    · rw [Bool.lt_iff] at hlt
      exact absurd hlt.1 (by simp)
    · have := heq.symm
      rwa [Bool.not_eq_eq_eq_not, Bool.not_true] at this

/-- **C5, witness.** On the C5 scenario, the first row of the leaderboard is
city B with numeric rank `some 1 = some (0 + 1)`. -/
theorem C5_gas_leaderboard_witness :
    (get_gas_leaderboard ["A", "B"] cacheC5 "G").get? 0
      = some (gasEntryFor cacheC5 "G" "B", some 1) ∧
    ((gasEntryFor cacheC5 "G" "B", (some 1 : Option ℕ))).2 = some (0 + 1) := by
  have hget : (get_gas_leaderboard ["A", "B"] cacheC5 "G").get? 0
      = some (gasEntryFor cacheC5 "G" "B", some 1) := by
    rw [gas_leaderboard_C5_eval]
    rfl
  exact ⟨hget, (C5_gas_leaderboard ["A", "B"] cacheC5 "G").2.2.1 0 _ hget⟩

/-! ## Claim C6 -/

/-- **C6.** For every pair of cities, with `i1`/`i2` their composite
pollution indices: `overall_cleaner` is the city with the strictly lower
index and `"equal"` when they tie; `difference_percent` is 0 when they tie,
`|i1 − i2| / max i1 i2 * 100` (rounded to one decimal like every reported
percentage) when they differ with positive maximum, and 100 when they
differ and the larger index is 0.  In particular equal indices (such as
30 = 30) give `("equal", 0)`. -/
theorem C6_compare_cities (city1_name city2_name : String)
    (cache : String → Option CacheData) (hist : String → List Violation)
    (i1 i2 : ℚ)
    (h1 : i1 = (calculate_city_score city1_name (cache city1_name)
      (hist city1_name)).pollution_index)
    (h2 : i2 = (calculate_city_score city2_name (cache city2_name)
      (hist city2_name)).pollution_index) :
    (i1 = i2 →
      (compare_cities city1_name city2_name cache hist).overall_cleaner = "equal" ∧
      (compare_cities city1_name city2_name cache hist).difference_percent = 0) ∧
    (i1 < i2 →
      (compare_cities city1_name city2_name cache hist).overall_cleaner = city1_name) ∧
    (i2 < i1 →
      (compare_cities city1_name city2_name cache hist).overall_cleaner = city2_name) ∧
    (i1 ≠ i2 → 0 < max i1 i2 →
      (compare_cities city1_name city2_name cache hist).difference_percent
        = pyRound1 (|i1 - i2| / max i1 i2 * 100)) ∧
    (i1 ≠ i2 → max i1 i2 = 0 →
      (compare_cities city1_name city2_name cache hist).difference_percent = 100) := by
  subst h1 h2
  set s1 := calculate_city_score city1_name (cache city1_name) (hist city1_name) with hs1
  set s2 := calculate_city_score city2_name (cache city2_name) (hist city2_name) with hs2
  have hclean : (compare_cities city1_name city2_name cache hist).overall_cleaner
      = (if s1.pollution_index < s2.pollution_index then city1_name
         else if s2.pollution_index < s1.pollution_index then city2_name
         else "equal") := rfl
  have hdiff : (compare_cities city1_name city2_name cache hist).difference_percent
      = pyRound1 (if s1.pollution_index < s2.pollution_index then
          (if s2.pollution_index > 0 then
            (s2.pollution_index - s1.pollution_index) / s2.pollution_index * 100 else 100)
        else if s2.pollution_index < s1.pollution_index then
          (if s1.pollution_index > 0 then
            (s1.pollution_index - s2.pollution_index) / s1.pollution_index * 100 else 100)
        else 0) := rfl
  refine ⟨?_, ?_, ?_, ?_, ?_⟩
  · intro heq
    constructor
    · rw [hclean, if_neg (by rw [heq]; exact lt_irrefl _),
        if_neg (by rw [heq]; exact lt_irrefl _)]
    · rw [hdiff, if_neg (by rw [heq]; exact lt_irrefl _),
        if_neg (by rw [heq]; exact lt_irrefl _), pyRound1_zero]
  · intro hlt
    rw [hclean, if_pos hlt]
  · intro hlt
    rw [hclean, if_neg (not_lt.mpr (le_of_lt hlt)), if_pos hlt]
  · intro hne hmax
    rcases lt_or_gt_of_ne hne with hlt | hgt
    · have hm : max s1.pollution_index s2.pollution_index = s2.pollution_index :=
        max_eq_right (le_of_lt hlt)
      rw [hm] at hmax
      rw [hdiff, if_pos hlt, if_pos hmax, hm,
        abs_sub_comm, abs_of_nonneg (by linarith)]
    · have hm : max s1.pollution_index s2.pollution_index = s1.pollution_index :=
        max_eq_left (le_of_lt hgt)
      rw [hm] at hmax
      rw [hdiff, if_neg (not_lt.mpr (le_of_lt hgt)), if_pos hgt, if_pos hmax, hm,
        abs_of_nonneg (by linarith)]
  · intro hne hmax
    rcases lt_or_gt_of_ne hne with hlt | hgt
    · have hm : max s1.pollution_index s2.pollution_index = s2.pollution_index :=
        max_eq_right (le_of_lt hlt)
      rw [hm] at hmax
      rw [hdiff, if_pos hlt, if_neg (by rw [hmax]; exact lt_irrefl _), pyRound1_hundred]
    · have hm : max s1.pollution_index s2.pollution_index = s1.pollution_index :=
        max_eq_left (le_of_lt hgt)
      rw [hm] at hmax
      rw [hdiff, if_neg (not_lt.mpr (le_of_lt hgt)), if_pos hgt,
        if_neg (by rw [hmax]; exact lt_irrefl _), pyRound1_hundred]

/-- The C6 witness cache: city B has live data (average 100% of threshold,
full completeness), city A has none. -/
def cacheC6 : String → Option CacheData := fun c =>
  if c = "B" then
    some { metrics := some { avg_threshold_percentage := 100, data_completeness := 1 } }
  else none

theorem cacheC6_idx_A :
    (calculate_city_score "A" (cacheC6 "A") []).pollution_index = 50 := by
  show pyRound1 (compositeVal none []) = 50
  norm_num [pyRound1, round_eq, compositeVal, dataQualityVal, liveScoreVal,
    historicalScoreVal]

theorem cacheC6_idx_B :
    (calculate_city_score "B" (cacheC6 "B") []).pollution_index = 70 := by
  show pyRound1 (compositeVal (cacheC6 "B") []) = 70
  norm_num [pyRound1, round_eq, compositeVal, dataQualityVal, liveScoreVal,
    historicalScoreVal, cacheC6, WEIGHT_LIVE, WEIGHT_HISTORICAL]

/-- **C6, witness.** With city A at the neutral 50 and city B at 70, the
comparison names A as overall cleaner and reports
`|50 − 70| / max 50 70 * 100` (rounded): 28.6. -/
theorem C6_compare_cities_witness :
    (compare_cities "A" "B" cacheC6 (fun _ => [])).overall_cleaner = "A" ∧
    (compare_cities "A" "B" cacheC6 (fun _ => [])).difference_percent
      = pyRound1 (|(50 : ℚ) - 70| / max (50 : ℚ) 70 * 100) := by
  have h := C6_compare_cities "A" "B" cacheC6 (fun _ => []) 50 70
    cacheC6_idx_A.symm cacheC6_idx_B.symm
  exact ⟨h.2.1 (by norm_num), h.2.2.2.1 (by norm_num) (by norm_num)⟩

/-! ## Claim C8 -/

theorem statsInv_saveCityStep (now : String) (st : String → Option CacheData)
    (p : String × ScanCityData) (h : storeInv st) :
    storeInv (saveCityStep now st p) := by
  rw [saveCityStep]
  by_cases h0 : p.2.metrics.data_completeness = 0
  · rwa [if_pos h0]
  · rw [if_neg h0]
    intro c doc ms hdoc hms
    dsimp only at hdoc
    by_cases hc : c = p.1
    · rw [if_pos hc, Option.some_inj] at hdoc
      have hex : statsInv (existingStatsOf st p.1) := by
        rw [existingStatsOf]
        cases hst : st p.1 with
        | none => simp [statsInv]
        | some d =>
          cases hms2 : d.monitoring_stats with
          | none => simp [hms2, statsInv]
          | some ms2 =>
            simp only [hms2, Option.getD_some]
            exact h p.1 d ms2 hst hms2
      rw [← hdoc] at hms
      rw [Option.some_inj] at hms
      rw [← hms]
      show statsInv (updatedStats (existingStatsOf st p.1) now)
      simp only [statsInv, updatedStats]
      rw [statsInv] at hex
      omega
    · rw [if_neg hc] at hdoc
      exact h c doc ms hdoc hms

theorem saveCityStep_eq_or (now : String) (st : String → Option CacheData)
    (p : String × ScanCityData) (c : String) :
    saveCityStep now st p c = st c ∨
      (c = p.1 ∧ p.2.metrics.data_completeness ≠ 0) := by
  rw [saveCityStep]
  by_cases h0 : p.2.metrics.data_completeness = 0
  · rw [if_pos h0]
    exact Or.inl rfl
  · rw [if_neg h0]
    by_cases hc : c = p.1
    · exact Or.inr ⟨hc, h0⟩
    · rw [if_neg hc]
      exact Or.inl rfl

/-- **C8.** After every write performed by the regional scan's cache save,
the stored `MonitoringStats` keep `total_scans = background_scans +
user_scans`: an absent record starts the counters at the zero defaults
(so the first write yields 1 = 1 + 0), and each write increments
`total_scans` and `background_scans` by 1 and leaves `user_scans`
unchanged, preserving the invariant over the whole store; and the store
changes at a city only when that city's scan entry has
`data_completeness > 0` (the loop skips completeness 0, and a scan
completeness — a ratio of counts — is never negative). -/
theorem C8_cache_invariant :
    ∀ (results : List (String × ScanCityData)) (now : String)
      (store : String → Option CacheData),
      storeInv store →
      (∀ p ∈ results, 0 ≤ p.2.metrics.data_completeness) →
      storeInv (save_all_to_cache results now store) ∧
      (∀ c, save_all_to_cache results now store c ≠ store c →
        ∃ p ∈ results, p.1 = c ∧ 0 < p.2.metrics.data_completeness) := by
  intro results
  induction results with
  | nil =>
    intro now store hinv hnn
    exact ⟨hinv, fun c hne => absurd rfl hne⟩
  | cons p rest ih =>
    intro now store hinv hnn
    have hcons : save_all_to_cache (p :: rest) now store
        = save_all_to_cache rest now (saveCityStep now store p) := rfl
    have hstep := statsInv_saveCityStep now store p hinv
    obtain ⟨ih1, ih2⟩ := ih now (saveCityStep now store p) hstep
      (fun q hq => hnn q (List.mem_cons_of_mem _ hq))
    rw [hcons]
    refine ⟨ih1, fun c hne => ?_⟩
    by_cases hmid : saveCityStep now store p c = store c
    · rw [← hmid] at hne
      obtain ⟨q, hq, hqc, hqpos⟩ := ih2 c hne
      exact ⟨q, List.mem_cons_of_mem _ hq, hqc, hqpos⟩
    · rcases saveCityStep_eq_or now store p c with heq | ⟨hc, h0⟩
      · exact absurd heq hmid
      · exact ⟨p, List.mem_cons_self _ _, hc.symm,
          lt_of_le_of_ne (hnn p (List.mem_cons_self _ _)) (Ne.symm h0)⟩

/-- The C8 witness scan entry: full completeness for one city. -/
def scanC8 : ScanCityData :=
  { city := "Yanbu", region := "Western",
    metrics := { avg_threshold_percentage := 40, data_completeness := 1 } }

/-- **C8, witness.** Saving one fully-complete scan entry into an empty
store preserves the counter invariant, and any changed city comes from an
entry with positive completeness. -/
theorem C8_cache_invariant_witness :
    storeInv (save_all_to_cache [("Yanbu", scanC8)] "2026-01-01" (fun _ => none)) ∧
    (∀ c, save_all_to_cache [("Yanbu", scanC8)] "2026-01-01" (fun _ => none) c
        ≠ (fun _ => (none : Option CacheData)) c →
      ∃ p ∈ [("Yanbu", scanC8)], p.1 = c ∧ 0 < p.2.metrics.data_completeness) :=
  C8_cache_invariant [("Yanbu", scanC8)] "2026-01-01" (fun _ => none)
    (fun _ _ _ hdoc _ => nomatch hdoc)
    (fun p hp => by
      have hp2 : p = ("Yanbu", scanC8) := List.mem_singleton.mp hp
      rw [hp2]
      norm_num [scanC8])

/-! ## Claim C3 -/

/-- The critical-violation count of the historical-score block. -/
def critCount (hv : List Violation) : ℕ :=
  (hv.filter (fun v => v.severity == "critical")).length

/-- The weighted violation count (`moderate + 1.5 * critical`). -/
def weightedOf (hv : List Violation) : ℚ :=
  ((hv.length - critCount hv : ℕ) : ℚ) + (critCount hv : ℚ) * (3/2)

/-- The truthy exceedance list of the historical-score block. -/
def exceedancesOf (hv : List Violation) : List ℚ :=
  (hv.filter (fun v => v.percentage_over != 0)).map (·.percentage_over)

/-- The `np.mean`-with-empty-guard of the historical-score block. -/
def avgOf (hv : List Violation) : ℚ :=
  if (exceedancesOf hv).isEmpty then 0
  else (exceedancesOf hv).sum / ((exceedancesOf hv).length : ℚ)

theorem historicalScoreVal_eq (hv : List Violation) :
    historicalScoreVal hv
      = if hv.isEmpty then 0 else min (weightedOf hv * 3 + avgOf hv * (1/5)) 50 := rfl

theorem critCount_le (hv : List Violation) : critCount hv ≤ hv.length :=
  List.length_filter_le _ _

theorem weightedOf_nonneg (hv : List Violation) : 0 ≤ weightedOf hv :=
  add_nonneg (Nat.cast_nonneg _) (mul_nonneg (Nat.cast_nonneg _) (by norm_num))

/-- The cap: the historical score never exceeds 50. -/
theorem historicalScoreVal_le_50 (hv : List Violation) :
    historicalScoreVal hv ≤ 50 := by
  rw [historicalScoreVal_eq]
  split
  · norm_num
  · exact min_le_right _ _

/-- Appending a violation whose `percentage_over` is 0 (or absent) never
lowers the historical score. -/
theorem historicalScoreVal_append_zero (hv : List Violation) (v : Violation)
    (hz : v.percentage_over = 0) :
    historicalScoreVal hv ≤ historicalScoreVal (hv ++ [v]) := by
  have hexc : exceedancesOf (hv ++ [v]) = exceedancesOf hv := by
    simp [exceedancesOf, List.filter_append, List.filter_cons, hz]
  have havg : avgOf (hv ++ [v]) = avgOf hv := by
    rw [avgOf, avgOf, hexc]
  have hwt : weightedOf hv ≤ weightedOf (hv ++ [v]) := by
    have hc : critCount hv ≤ hv.length := critCount_le hv
    by_cases hcrit : (v.severity == "critical") = true
    · have hcc : critCount (hv ++ [v]) = critCount hv + 1 := by
        simp [critCount, List.filter_append, List.filter_cons, hcrit]
      rw [weightedOf, weightedOf, hcc, List.length_append, List.length_singleton]
      rw [Nat.succ_sub_succ hv.length (critCount hv)]
      push_cast
      linarith
    · have hcc : critCount (hv ++ [v]) = critCount hv := by
        simp [critCount, List.filter_append, List.filter_cons, hcrit]
      rw [weightedOf, weightedOf, hcc, List.length_append, List.length_singleton]
      rw [Nat.sub_add_comm hc]
      push_cast
      linarith
  cases hv with
  | nil =>
    rw [historicalScoreVal_eq, historicalScoreVal_eq]
    simp only [List.isEmpty_nil, if_true, List.nil_append]
    rw [if_neg (by simp)]
    refine le_min ?_ (by norm_num)
    have h0 : avgOf [v] = 0 := by
      simp [avgOf, exceedancesOf, List.filter_cons, hz]
    rw [h0]
    have := weightedOf_nonneg [v]
    linarith
  | cons a l =>
    rw [historicalScoreVal_eq, historicalScoreVal_eq]
    rw [if_neg (by simp), if_neg (by simp)]
    rw [havg]
    exact min_le_min (by linarith) (le_refl 50)

/-- Raising the positive `percentage_over` of one violation (severity
unchanged) never lowers the historical score. -/
theorem historicalScoreVal_raise_pos (pre suf : List Violation)
    (v w : Violation) (hsev : v.severity = w.severity)
    (hpos : 0 < v.percentage_over)
    (hle : v.percentage_over ≤ w.percentage_over) :
    historicalScoreVal (pre ++ v :: suf) ≤ historicalScoreVal (pre ++ w :: suf) := by
  have hvin : (v.percentage_over != 0) = true := bne_iff_ne.mpr (ne_of_gt hpos)
  have hwin : (w.percentage_over != 0) = true :=
    bne_iff_ne.mpr (ne_of_gt (lt_of_lt_of_le hpos hle))
  have hcritv : (v.severity == "critical") = (w.severity == "critical") := by
    rw [hsev]
  have hlen : (pre ++ v :: suf).length = (pre ++ w :: suf).length := by
    simp
  have hcc : critCount (pre ++ v :: suf) = critCount (pre ++ w :: suf) := by
    simp only [critCount, List.filter_append, List.filter_cons, hcritv]
    by_cases hcrit : (w.severity == "critical") = true <;>
      simp [hcrit]
  have hwt : weightedOf (pre ++ v :: suf) = weightedOf (pre ++ w :: suf) := by
    rw [weightedOf, weightedOf, hcc, hlen]
  have hexcv : exceedancesOf (pre ++ v :: suf)
      = exceedancesOf pre ++ v.percentage_over :: exceedancesOf suf := by
    simp [exceedancesOf, List.filter_append, List.filter_cons, hvin]
  have hexcw : exceedancesOf (pre ++ w :: suf)
      = exceedancesOf pre ++ w.percentage_over :: exceedancesOf suf := by
    simp [exceedancesOf, List.filter_append, List.filter_cons, hwin]
  have hlenx : (exceedancesOf (pre ++ v :: suf)).length
      = (exceedancesOf (pre ++ w :: suf)).length := by
    rw [hexcv, hexcw]
    simp
  have hnempty : (exceedancesOf (pre ++ v :: suf)).isEmpty = false := by
    rw [hexcv]
    cases exceedancesOf pre <;> rfl
  have hnemptyw : (exceedancesOf (pre ++ w :: suf)).isEmpty = false := by
    rw [hexcw]
    cases exceedancesOf pre <;> rfl
  have hsum : (exceedancesOf (pre ++ v :: suf)).sum
      ≤ (exceedancesOf (pre ++ w :: suf)).sum := by
    rw [hexcv, hexcw, List.sum_append, List.sum_append, List.sum_cons, List.sum_cons]
    linarith
  have hpositive : (0 : ℚ) < ((exceedancesOf (pre ++ w :: suf)).length : ℚ) := by
    rw [hexcw]
    have : 0 < (exceedancesOf pre ++ w.percentage_over :: exceedancesOf suf).length := by
      simp
    exact_mod_cast this
  have havg : avgOf (pre ++ v :: suf) ≤ avgOf (pre ++ w :: suf) := by
    rw [avgOf, avgOf, hnempty, hnemptyw]
    simp only [Bool.false_eq_true, if_false]
    rw [hlenx]
    exact (div_le_div_iff_of_pos_right hpositive).mpr hsum
  rw [historicalScoreVal_eq, historicalScoreVal_eq,
    if_neg (by simp), if_neg (by simp), hwt]
  exact min_le_min (by linarith) (le_refl 50)

/-- The C3 counterexample history: one moderate violation at 100%
exceedance plus one moderate violation with `percentage_over = 0`. -/
def hvC3a : List Violation :=
  [{ severity := "moderate", percentage_over := 100 },
   { severity := "moderate", percentage_over := 0 }]

/-- `hvC3a` with the zero exceedance raised to 1. -/
def hvC3b : List Violation :=
  [{ severity := "moderate", percentage_over := 100 },
   { severity := "moderate", percentage_over := 1 }]

/-- The single-violation history `[{moderate, 100}]`. -/
def hvC3c : List Violation :=
  [{ severity := "moderate", percentage_over := 100 }]

/-- **C3, counterexample.** Raising a `percentage_over` from 0 to 1 drops
the historical score from 26 to 16.1 (the raised value now enters the mean
and drags it from 100 to 50.5), and likewise appending that small-exceedance
violation to the single-violation history drops the score from 23 to 16.1:
the claimed monotonicity fails in both the exceedance and the count. -/
theorem C3_counterexample :
    historicalScoreVal hvC3a = 26 ∧
    historicalScoreVal hvC3b = 161/10 ∧
    historicalScoreVal hvC3b < historicalScoreVal hvC3a ∧
    historicalScoreVal hvC3c = 23 ∧
    hvC3b = hvC3c ++ [{ severity := "moderate", percentage_over := 1 }] ∧
    historicalScoreVal (hvC3c ++ [{ severity := "moderate", percentage_over := 1 }])
      < historicalScoreVal hvC3c := by
  have ha : historicalScoreVal hvC3a = 26 := by
    simp [historicalScoreVal, hvC3a, List.filter_cons]
    norm_num
  have hb : historicalScoreVal hvC3b = 161/10 := by
    simp [historicalScoreVal, hvC3b, List.filter_cons]
    norm_num
  have hc : historicalScoreVal hvC3c = 23 := by
    simp [historicalScoreVal, hvC3c, List.filter_cons]
    norm_num
  have hbc : hvC3b = hvC3c ++ [{ severity := "moderate", percentage_over := 1 }] := rfl
  refine ⟨ha, hb, ?_, hc, hbc, ?_⟩
  · rw [ha, hb]
    norm_num
  · rw [← hbc, hb, hc]
    norm_num

/-- **C3, amended.** For every violation list the historical score never
exceeds 50 (the cap).  It is monotonically non-decreasing in the violation
count when the added violation carries `percentage_over = 0` (absent or
zero exceedance), and non-decreasing in a violation's exceedance percentage
as long as the raised percentage starts positive (severity unchanged).
Raising a `percentage_over` from 0 to a positive value below the current
mean, or adding a violation with such an exceedance, can lower the score
(see the counterexample), because the truthiness filter then admits a new
value into the mean. -/
theorem C3_historical_monotone :
    (∀ hv : List Violation, historicalScoreVal hv ≤ 50) ∧
    (∀ (hv : List Violation) (v : Violation), v.percentage_over = 0 →
      historicalScoreVal hv ≤ historicalScoreVal (hv ++ [v])) ∧
    (∀ (pre suf : List Violation) (v w : Violation),
      v.severity = w.severity → 0 < v.percentage_over →
      v.percentage_over ≤ w.percentage_over →
      historicalScoreVal (pre ++ v :: suf) ≤ historicalScoreVal (pre ++ w :: suf)) :=
  ⟨historicalScoreVal_le_50, historicalScoreVal_append_zero,
   historicalScoreVal_raise_pos⟩

/-- **C3, witness.** The amended monotonicity at concrete inputs: the cap on
`hvC3c`, appending a zero-exceedance moderate violation to `hvC3c`, and
raising 100 to 150 in `hvC3c`. -/
theorem C3_historical_monotone_witness :
    historicalScoreVal hvC3c ≤ 50 ∧
    historicalScoreVal hvC3c
      ≤ historicalScoreVal (hvC3c ++ [{ severity := "moderate", percentage_over := 0 }]) ∧
    historicalScoreVal ([] ++ { severity := "moderate", percentage_over := 100 } :: [])
      ≤ historicalScoreVal ([] ++ { severity := "moderate", percentage_over := 150 } :: []) :=
  ⟨C3_historical_monotone.1 hvC3c,
   C3_historical_monotone.2.1 hvC3c _ rfl,
   C3_historical_monotone.2.2 [] [] _ _ rfl (by norm_num) (by norm_num)⟩

end KSA
